import Mathlib

/-!
Verification development for `tools/dataset_converters/a2d2.py`: a converter
from the A2D2 vendor annotation format to COCO-style object-detection JSON,
with deterministic train/val/test splitting.

The Python source is shallowly embedded below.  Dictionaries with string keys
become association lists, Python exceptions become an explicit `ConvError`
channel via `Except`, the two-level assembly loop of `main` becomes explicit
state threading, and JSON output becomes an accumulated list of `Written`
records (file I/O itself is out of scope).  Numeric bounding-box coordinates
are embedded as `Int`.
-/

namespace A2D2

/-- `DEFAULT_AREA = 100` (a2d2.py line 10): placeholder for the COCO area field. -/
def DEFAULT_AREA : Nat := 100

/-- `CATEGORY_A2D2_IDX` (a2d2.py lines 13-28): vendor token to native id, 0-13. -/
def CATEGORY_A2D2_IDX : List (String × Nat) :=
  [("Pedestrian", 0), ("Cyclist", 1), ("MotorBiker", 2), ("Car", 3),
   ("VanSUV", 4), ("Truck", 5), ("Bus", 6), ("UtilityVehicle", 7),
   ("Trailer", 8), ("CaravanTransporter", 9), ("EmergencyVehicle", 10),
   ("Motorcycle", 11), ("Bicycle", 12), ("Animal", 13)]

/-- `CATEGORY_CITYSCAPES_IDX` (a2d2.py lines 30-46): vendor token to
cityscapes id, with `none` embedding Python's `None` ignore sentinel. -/
def CATEGORY_CITYSCAPES_IDX : List (String × Option Nat) :=
  [("Pedestrian", some 24), ("Cyclist", some 25), ("MotorBiker", some 25),
   ("Car", some 26), ("VanSUV", some 26), ("Truck", some 27),
   ("Bus", some 28), ("Motorcycle", some 32), ("Bicycle", some 33),
   ("UtilityVehicle", none), ("Trailer", none), ("CaravanTransporter", none),
   ("EmergencyVehicle", none), ("Animal", none)]

/-- One `{id, name}` entry of the static COCO categories table. -/
structure CatEntry where
  id : Nat
  name : String
deriving DecidableEq, Repr

/-- `CATEGORIES_CITYSCAPES` (a2d2.py lines 48-57): the static categories table. -/
def CATEGORIES_CITYSCAPES : List CatEntry :=
  [⟨24, "person"⟩, ⟨25, "rider"⟩, ⟨26, "car"⟩, ⟨27, "truck"⟩,
   ⟨28, "bus"⟩, ⟨31, "train"⟩, ⟨32, "motorcycle"⟩, ⟨33, "bicycle"⟩]

/-- Python `dict` lookup `d[key]` on an association list: first matching key. -/
def lookupTok {β : Type} (tok : String) : List (String × β) → Option β
  | [] => none
  | (k, v) :: rest => if tok = k then some v else lookupTok tok rest

/-- The exceptions a2d2.py can raise during conversion:
`KeyError` from a dict lookup of an unknown token, the explicit
`Exception(f'Invalid dataset conversion target ...')`, and
`NotImplementedError` from `gen_cat_entries('a2d2')`. -/
inductive ConvError where
  | keyError (token : String)
  | invalidTarget (target : String)
  | notImplemented
deriving DecidableEq, Repr

/-- `conv_category` (a2d2.py lines 59-68).  Returns `some id` for a mapped
token, `none` for the ignore sentinel, and fails with `keyError` for an
absent token or `invalidTarget` for an unknown target dataset. -/
def conv_category (category_str : String) (target_dataset : String) :
    Except ConvError (Option Nat) :=
  if target_dataset = "a2d2" then
    match lookupTok category_str CATEGORY_A2D2_IDX with
    | some v => .ok (some v)
    | none => .error (.keyError category_str)
  else if target_dataset = "cityscapes" then
    match lookupTok category_str CATEGORY_CITYSCAPES_IDX with
    | some v => .ok v
    | none => .error (.keyError category_str)
  else .error (.invalidTarget target_dataset)

/-- One vendor annotation record of a label file: fields `class` (here `cls`,
since `class` is reserved) and `2d_bbox` (here `bbox2d`), a four-number
corner-corner box `[x_min, y_min, x_max, y_max]` (spec section 3). -/
structure AnnRaw where
  cls : String
  bbox2d : List Int
deriving DecidableEq, Repr

/-- A COCO image entry as built by `gen_img_entry`. -/
structure ImgEntry where
  id : Nat
  file_name : String
  width : Nat
  height : Nat
deriving DecidableEq, Repr

/-- A COCO annotation entry as built by `gen_ann_entry`. -/
structure AnnEntry where
  id : Nat
  image_id : Nat
  category_id : Nat
  bbox : List Int
  area : Nat
  iscrowd : Nat
deriving DecidableEq, Repr

/-- `gen_img_entry` (a2d2.py lines 119-130): width and height default to the
fixed sensor resolution 1920 by 1208. -/
def gen_img_entry (img_path : String) (img_idx : Nat)
    (width : Nat := 1920) (height : Nat := 1208) : ImgEntry :=
  { id := img_idx, file_name := img_path, width := width, height := height }

/-- `gen_ann_entry` (a2d2.py lines 133-174).  Looks the category up; an
ignored category yields `(none, ann_idx)` with the counter untouched;
otherwise the corner-corner box becomes a corner-size box and the counter is
incremented.  List indexing `a2d2_bbox[k]` is embedded as `getD k 0`; every
record in scope carries the four-number box of the data model. -/
def gen_ann_entry (ann_raw : AnnRaw) (ann_idx : Nat) (img_idx : Nat)
    (dataset_style : String) : Except ConvError (Option AnnEntry × Nat) :=
  match conv_category ann_raw.cls dataset_style with
  | .error e => .error e
  | .ok none => .ok (none, ann_idx)
  | .ok (some category_id) =>
    .ok (some {
      id := ann_idx,
      image_id := img_idx,
      category_id := category_id,
      bbox := [ann_raw.bbox2d.getD 0 0,
               ann_raw.bbox2d.getD 1 0,
               ann_raw.bbox2d.getD 2 0 - ann_raw.bbox2d.getD 0 0,
               ann_raw.bbox2d.getD 3 0 - ann_raw.bbox2d.getD 1 0],
      area := DEFAULT_AREA,
      iscrowd := 0 }, ann_idx + 1)

/-- `gen_ann_entries` (a2d2.py lines 177-209).  The parsed label file is the
list of its vendor records in iteration order (the instance keys are
discarded by the source's `for _, ann_raw in anns.items()`).  Ignored records
are skipped; produced records are kept in order; the counter threads through. -/
def gen_ann_entries (anns : List AnnRaw) (ann_idx : Nat) (img_idx : Nat)
    (dataset_style : String) : Except ConvError (List AnnEntry × Nat) :=
  match anns with
  | [] => .ok ([], ann_idx)
  | r :: rs =>
    match gen_ann_entry r ann_idx img_idx dataset_style with
    | .error e => .error e
    | .ok (entry, ann_idx1) =>
      match gen_ann_entries rs ann_idx1 img_idx dataset_style with
      | .error e => .error e
      | .ok (entries, ann_idx2) =>
        match entry with
        | some en => .ok (en :: entries, ann_idx2)
        | none => .ok (entries, ann_idx2)

/-- `gen_cat_entries` (a2d2.py lines 212-229): the native table is
unimplemented, the cityscapes table is the static list, anything else is the
invalid-target exception. -/
def gen_cat_entries (dataset_style : String) : Except ConvError (List CatEntry) :=
  if dataset_style = "a2d2" then .error .notImplemented
  else if dataset_style = "cityscapes" then .ok CATEGORIES_CITYSCAPES
  else .error (.invalidTarget dataset_style)

/-- Clamp one Python slice bound to an index into a list of length `len`:
a negative bound counts from the end, and both directions clamp to `[0, len]`. -/
def pyIndex (len : Nat) (i : Int) : Nat :=
  if i < 0 then ((len : Int) + i).toNat else min i.toNat len

/-- Python's `l[a:b]` slice. -/
def pySlice {α : Type} (l : List α) (a b : Int) : List α :=
  (l.take (pyIndex l.length b)).drop (pyIndex l.length a)

/-- Loop body of `split_sample_list` (a2d2.py lines 104-116): `idx0` is the
running prefix sum; each count `N` contributes the slice `l[idx0 : idx0+N]`. -/
def split_sample_list_go {α : Type} (l : List α) (idx0 : Int) :
    List Int → List (List α)
  | [] => []
  | N :: Ns => pySlice l idx0 (idx0 + N) :: split_sample_list_go l (idx0 + N) Ns

/-- `split_sample_list` (a2d2.py lines 104-116): slices the sample list into
consecutive Python slices of the given sizes, one per count, with no
validation of the counts. -/
def split_sample_list {α : Type} (sample_list : List α) (split_Ns : List Int) :
    List (List α) :=
  split_sample_list_go sample_list 0 split_Ns

/-- One step of a 64-bit linear congruential generator driving the model of
the seeded shuffle. -/
def lcg_next (s : Nat) : Nat :=
  (6364136223846793005 * s + 1442695040888963407) % 18446744073709551616

/-- Modelled from the spec: Python's `random.shuffle` seeded by
`random.seed` (a2d2.py lines 322 and 334; the library shuffle itself is not
repository code).  Spec section 4.5 requires only a deterministic,
seed-dependent permutation and explicitly disclaims bit-for-bit reproduction
of the library shuffle, so the model repeatedly extracts a PRNG-chosen
element; the fuel is the list length, so every element is consumed. -/
def shuffle_go {α : Type} : Nat → Nat → List α → List α
  | 0, _, l => l
  | _ + 1, _, [] => []
  | n + 1, s, x :: xs =>
    (x :: xs).getD (s % (x :: xs).length) x ::
      shuffle_go n (lcg_next s) ((x :: xs).eraseIdx (s % (x :: xs).length))

/-- Modelled from the spec: the seeded shuffle, entry point. -/
def shuffle {α : Type} (seed : Nat) (l : List α) : List α :=
  shuffle_go l.length seed l

/-- A sample pair as the assembly loop consumes it: the image path together
with the parsed content of its label file (file reading is out of scope; the
pair carries the records the read would produce). -/
abbrev SamplePair : Type := String × List AnnRaw

/-- Inner loop of `main` over one split (a2d2.py lines 353-375): one image
entry per pair, all annotation entries appended, `img_idx` and `ann_idx`
threaded exactly as in the source. -/
def process_split_go (dataset_style : String) :
    List SamplePair → Nat → Nat → Except ConvError (List ImgEntry × List AnnEntry)
  | [], _, _ => .ok ([], [])
  | (img_path, anns) :: rest, img_idx, ann_idx =>
    match gen_ann_entries anns ann_idx img_idx dataset_style with
    | .error e => .error e
    | .ok (aes, ann_idx1) =>
      match process_split_go dataset_style rest (img_idx + 1) ann_idx1 with
      | .error e => .error e
      | .ok (ies, aes2) => .ok (gen_img_entry img_path img_idx :: ies, aes ++ aes2)

/-- One split of `main`: counters start at 0 for each split. -/
def process_split (dataset_style : String) (pairs : List SamplePair) :
    Except ConvError (List ImgEntry × List AnnEntry) :=
  process_split_go dataset_style pairs 0 0

/-- One output file as handed to `write_json_file` (a2d2.py lines 232-260),
tagged with its split name; the disk write itself is out of scope. -/
structure Written where
  split : String
  cats : List CatEntry
  imgs : List ImgEntry
  anns : List AnnEntry
deriving DecidableEq, Repr

/-- The split loop of `main` (a2d2.py lines 353-381): splits are processed in
order; a raised exception aborts the run, so the files written so far is the
first component and the aborting error, if any, the second.  For each split
the sample loop runs first, then `gen_cat_entries`, then the write. -/
def run_splits (dataset_style : String) :
    List (String × List SamplePair) → List Written × Option ConvError
  | [] => ([], none)
  | (name, pairs) :: rest =>
    match process_split dataset_style pairs with
    | .error e => ([], some e)
    | .ok (imgs, anns) =>
      match gen_cat_entries dataset_style with
      | .error e => ([], some e)
      | .ok cats =>
        match run_splits dataset_style rest with
        | (ws, r) => (⟨name, cats, imgs, anns⟩ :: ws, r)

/-- The number of vendor records of one label file whose token maps to a
non-ignored category id: exactly the records for which `gen_ann_entry`
produces an entry. -/
def countValid (dataset_style : String) (anns : List AnnRaw) : Nat :=
  anns.countP
    (fun r =>
      match conv_category r.cls dataset_style with
      | .ok (some _) => true
      | _ => false)

deriving instance DecidableEq for Except

/-! Helper lemmas shared by the claim theorems. -/

/-- A successful association-list lookup returns one of the stored values. -/
theorem lookupTok_mem {β : Type} {tok : String} {v : β} :
    ∀ {l : List (String × β)}, lookupTok tok l = some v → v ∈ l.map Prod.snd := by
  intro l
  induction l with
  | nil => intro h; simp [lookupTok] at h
  | cons p rest ih =>
    obtain ⟨k, w⟩ := p
    intro h
    simp only [lookupTok] at h
    split at h
    · simp only [Option.some.injEq] at h
      subst h
      simp
    · simpa using Or.inr (ih h)

/-- `conv_category` in the cityscapes space is the cityscapes table lookup. -/
theorem conv_category_cityscapes (tok : String) :
    conv_category tok "cityscapes" =
      match lookupTok tok CATEGORY_CITYSCAPES_IDX with
      | some v => .ok v
      | none => .error (.keyError tok) := rfl

/-- Inversion for a successful `gen_ann_entry`: either the category was
ignored and nothing changed, or a record with id `n` was produced and the
counter advanced by one. -/
theorem gen_ann_entry_ok_inv {r : AnnRaw} {n i : Nat} {style : String}
    {entry : Option AnnEntry} {n1 : Nat}
    (h : gen_ann_entry r n i style = .ok (entry, n1)) :
    (entry = none ∧ n1 = n ∧ conv_category r.cls style = .ok none) ∨
    (∃ c, conv_category r.cls style = .ok (some c) ∧ n1 = n + 1 ∧
      ∃ en, entry = some en ∧ en.id = n) := by
  unfold gen_ann_entry at h
  rcases hc : conv_category r.cls style with e | v
  · rw [hc] at h; simp at h
  · rw [hc] at h
    rcases v with _ | c
    · simp only [Except.ok.injEq, Prod.mk.injEq] at h
      obtain ⟨he, hn⟩ := h
      subst he
      subst hn
      exact Or.inl ⟨rfl, rfl, rfl⟩
    · simp only [Except.ok.injEq, Prod.mk.injEq] at h
      obtain ⟨he, hn⟩ := h
      subst he
      subst hn
      exact Or.inr ⟨c, rfl, rfl, _, rfl, rfl⟩

/-- When the target space is neither known tag, `conv_category` is the
invalid-target exception. -/
theorem conv_category_bad (tok s : String) (h1 : s ≠ "a2d2")
    (h2 : s ≠ "cityscapes") :
    conv_category tok s = .error (.invalidTarget s) := by
  simp [conv_category, h1, h2]

/-- `gen_ann_entry` propagates the invalid-target exception. -/
theorem gen_ann_entry_bad (r : AnnRaw) (n i : Nat) (s : String)
    (h1 : s ≠ "a2d2") (h2 : s ≠ "cityscapes") :
    gen_ann_entry r n i s = .error (.invalidTarget s) := by
  simp [gen_ann_entry, conv_category_bad r.cls s h1 h2]

/-- `gen_ann_entries` on a nonempty record list propagates the
invalid-target exception. -/
theorem gen_ann_entries_bad_cons (r : AnnRaw) (rs : List AnnRaw) (n i : Nat)
    (s : String) (h1 : s ≠ "a2d2") (h2 : s ≠ "cityscapes") :
    gen_ann_entries (r :: rs) n i s = .error (.invalidTarget s) := by
  simp [gen_ann_entries, gen_ann_entry_bad r n i s h1 h2]

/-- With an unknown target space, any exception the split loop raises is the
invalid-target exception. -/
theorem process_split_go_bad_error (s : String) (h1 : s ≠ "a2d2")
    (h2 : s ≠ "cityscapes") :
    ∀ (pairs : List SamplePair) (i n : Nat) (e : ConvError),
      process_split_go s pairs i n = .error e → e = .invalidTarget s := by
  intro pairs
  induction pairs with
  | nil => intro i n e h; simp [process_split_go] at h
  | cons p rest ih =>
    intro i n e h
    obtain ⟨ip, anns⟩ := p
    cases anns with
    | nil =>
      simp only [process_split_go, gen_ann_entries] at h
      rcases hr : process_split_go s rest (i + 1) n with e2 | ok
      · rw [hr] at h
        simp only [Except.error.injEq] at h
        exact h ▸ ih (i + 1) n e2 hr
      · rw [hr] at h; simp at h
    | cons r rs =>
      simp only [process_split_go,
        gen_ann_entries_bad_cons r rs n i s h1 h2, Except.error.injEq] at h
      exact h.symm

/-- Extracting the element at a valid index and consing it onto the remainder
permutes the list. -/
theorem getD_cons_eraseIdx_perm {α : Type} :
    ∀ (l : List α) (i : Nat) (d : α), i < l.length →
      l.Perm (l.getD i d :: l.eraseIdx i)
  | [], i, _, h => absurd h (by simp)
  | x :: xs, 0, d, _ => by simp
  | x :: xs, i + 1, d, h => by
    have hi : i < xs.length := by simpa using Nat.lt_of_succ_lt_succ h
    have ih := getD_cons_eraseIdx_perm xs i d hi
    have step1 : (x :: xs).Perm (x :: (xs.getD i d :: xs.eraseIdx i)) := ih.cons x
    have step2 : (x :: (xs.getD i d :: xs.eraseIdx i)).Perm
        (xs.getD i d :: x :: xs.eraseIdx i) :=
      List.Perm.swap (xs.getD i d) x (xs.eraseIdx i)
    simpa [List.getD] using step1.trans step2

/-- The shuffle loop permutes its input for any fuel and PRNG state. -/
theorem shuffle_go_perm {α : Type} :
    ∀ (fuel s : Nat) (l : List α), (shuffle_go fuel s l).Perm l := by
  intro fuel
  induction fuel with
  | zero => intro s l; simp [shuffle_go]
  | succ n ih =>
    intro s l
    cases l with
    | nil => simp [shuffle_go]
    | cons x xs =>
      have hlt : s % (x :: xs).length < (x :: xs).length :=
        Nat.mod_lt _ (by simp)
      simp only [shuffle_go]
      exact ((ih (lcg_next s) _).cons _).trans
        (getD_cons_eraseIdx_perm (x :: xs) (s % (x :: xs).length) x hlt).symm

/-- The modelled seeded shuffle permutes its input. -/
theorem shuffle_perm {α : Type} (seed : Nat) (l : List α) :
    (shuffle seed l).Perm l :=
  shuffle_go_perm l.length seed l

/-- A Python slice with in-range natural bounds is a take-then-drop. -/
theorem pySlice_coe {α : Type} (l : List α) (a b : Nat)
    (ha : a ≤ l.length) (hb : b ≤ l.length) :
    pySlice l (a : Int) (b : Int) = (l.take b).drop a := by
  have h1 : ¬ ((b : Int) < 0) := by omega
  have h2 : ¬ ((a : Int) < 0) := by omega
  simp [pySlice, pyIndex, h1, h2, Nat.min_eq_left ha, Nat.min_eq_left hb]

/-- The split loop returns one slice per requested count. -/
theorem split_sample_list_go_length {α : Type} (l : List α) :
    ∀ (Ns : List Int) (idx0 : Int),
      (split_sample_list_go l idx0 Ns).length = Ns.length := by
  intro Ns
  induction Ns with
  | nil => intro idx0; simp [split_sample_list_go]
  | cons N Ns ih => intro idx0; simp [split_sample_list_go, ih]

/-- `range'` with step one is pairwise increasing. -/
theorem pairwise_lt_range' (s k : Nat) :
    (List.range' s k).Pairwise (· < ·) := by
  rw [List.range'_eq_map_range]
  exact List.Pairwise.map _ (fun a b h => by omega) (List.sorted_lt_range k)

/-- Structure of a successful `gen_ann_entries` run: the produced ids are the
consecutive block starting at the incoming counter, the counter advances by
the number of produced records, and that number is the count of non-ignored
records. -/
theorem gen_ann_entries_ok_spec (style : String) :
    ∀ (anns : List AnnRaw) (n i : Nat) (es : List AnnEntry) (n2 : Nat),
      gen_ann_entries anns n i style = .ok (es, n2) →
      es.map (·.id) = List.range' n es.length ∧
      n2 = n + es.length ∧ es.length = countValid style anns := by
  intro anns
  induction anns with
  | nil =>
    intro n i es n2 h
    simp only [gen_ann_entries, Except.ok.injEq, Prod.mk.injEq] at h
    obtain ⟨he, hn⟩ := h
    subst he
    subst hn
    simp [countValid]
  | cons r rs ih =>
    intro n i es n2 h
    simp only [gen_ann_entries] at h
    rcases hg : gen_ann_entry r n i style with e | ⟨entry, n1⟩
    · rw [hg] at h; simp at h
    · rw [hg] at h
      dsimp only at h
      rcases hr : gen_ann_entries rs n1 i style with e | ⟨es', n2'⟩
      · rw [hr] at h; simp at h
      · rw [hr] at h
        dsimp only at h
        obtain ⟨ih1, ih2, ih3⟩ := ih _ _ _ _ hr
        rcases gen_ann_entry_ok_inv hg with ⟨hen, hn1, hconv⟩ | ⟨c, hconv, hn1, en, hen, hid⟩
        · subst hen
          subst hn1
          dsimp only at h
          simp only [Except.ok.injEq, Prod.mk.injEq] at h
          obtain ⟨he, hn⟩ := h
          subst he
          subst hn
          refine ⟨ih1, ih2, ?_⟩
          rw [ih3]
          simp [countValid, List.countP_cons, hconv]
        · subst hen
          subst hn1
          dsimp only at h
          simp only [Except.ok.injEq, Prod.mk.injEq] at h
          obtain ⟨he, hn⟩ := h
          subst he
          subst hn
          subst hid
          refine ⟨?_, ?_, ?_⟩
          · simp only [List.map_cons, ih1, List.length_cons]
            rw [List.range'_succ]
          · simp only [List.length_cons]
            omega
          · simp only [List.length_cons, ih3]
            simp [countValid, List.countP_cons, hconv]

/-- Structure of a successful split run: image ids are the consecutive block
starting at the incoming image counter with one image per pair carrying its
path, and annotation ids are the consecutive block starting at the incoming
annotation counter whose length is the total count of non-ignored records. -/
theorem process_split_go_ok_spec (style : String) :
    ∀ (pairs : List SamplePair) (i0 n0 : Nat)
      (ies : List ImgEntry) (aes : List AnnEntry),
      process_split_go style pairs i0 n0 = .ok (ies, aes) →
      ies.map (·.id) = List.range' i0 pairs.length ∧
      ies.map (·.file_name) = pairs.map Prod.fst ∧
      aes.map (·.id) = List.range' n0 aes.length ∧
      aes.length = (pairs.map (fun p => countValid style p.2)).sum := by
  intro pairs
  induction pairs with
  | nil =>
    intro i0 n0 ies aes h
    simp only [process_split_go, Except.ok.injEq, Prod.mk.injEq] at h
    obtain ⟨hi, ha⟩ := h
    subst hi
    subst ha
    simp
  | cons p rest ih =>
    intro i0 n0 ies aes h
    obtain ⟨ip, anns⟩ := p
    simp only [process_split_go] at h
    rcases hg : gen_ann_entries anns n0 i0 style with e | ⟨aes1, n1⟩
    · rw [hg] at h; simp at h
    · rw [hg] at h
      dsimp only at h
      rcases hrec : process_split_go style rest (i0 + 1) n1 with e | ⟨ies', aes2⟩
      · rw [hrec] at h; simp at h
      · rw [hrec] at h
        dsimp only at h
        simp only [Except.ok.injEq, Prod.mk.injEq] at h
        obtain ⟨hi, ha⟩ := h
        subst hi
        subst ha
        obtain ⟨g1, g2, g3⟩ := gen_ann_entries_ok_spec style anns n0 i0 aes1 n1 hg
        obtain ⟨r1, r2, r3, r4⟩ := ih _ _ _ _ hrec
        refine ⟨?_, ?_, ?_, ?_⟩
        · simp only [List.map_cons, r1, List.length_cons, gen_img_entry]
          rw [List.range'_succ]
        · simp [gen_img_entry, r2]
        · subst g2
          simp only [List.map_append, g1, r3, List.length_append,
            List.range'_append_1]
          rw [Nat.add_comm aes2.length aes1.length]
        · simp only [List.length_append, g3, r4, List.map_cons, List.sum_cons]

/-! The claim theorems. -/

/-- C1: for every vendor annotation record whose class token maps to a
non-ignore category id `c` in the chosen target space, building the
annotation with next annotation id `n` and image id `img_id` returns a record
with `id = n`, `image_id = img_id`, `category_id = c`, `iscrowd = 0`, and
bbox equal to `[x_min, y_min, x_max - x_min, y_max - y_min]` computed from
the record's corner-corner `2d_bbox`, and returns `n + 1` as the next
annotation id. -/
theorem claim_C1_build_valid (r : AnnRaw) (n img_id c : Nat) (style : String)
    (x_min y_min x_max y_max : Int)
    (hb : r.bbox2d = [x_min, y_min, x_max, y_max])
    (hc : conv_category r.cls style = .ok (some c)) :
    gen_ann_entry r n img_id style =
      .ok (some { id := n, image_id := img_id, category_id := c,
                  bbox := [x_min, y_min, x_max - x_min, y_max - y_min],
                  area := DEFAULT_AREA, iscrowd := 0 }, n + 1) := by
  simp [gen_ann_entry, hc, hb]

/-- Witness for C1 at the Pedestrian record of the spec scenario. -/
theorem claim_C1_build_valid_witness :
    (⟨"Pedestrian", [10, 20, 30, 50]⟩ : AnnRaw).bbox2d = [10, 20, 30, 50] ∧
    conv_category (⟨"Pedestrian", [10, 20, 30, 50]⟩ : AnnRaw).cls "cityscapes" =
      .ok (some 24) ∧
    gen_ann_entry ⟨"Pedestrian", [10, 20, 30, 50]⟩ 5 2 "cityscapes" =
      .ok (some { id := 5, image_id := 2, category_id := 24,
                  bbox := [10, 20, 20, 30], area := DEFAULT_AREA,
                  iscrowd := 0 }, 5 + 1) :=
  ⟨rfl, by decide,
    claim_C1_build_valid ⟨"Pedestrian", [10, 20, 30, 50]⟩ 5 2 24 "cityscapes"
      10 20 30 50 rfl (by decide)⟩

/-- C2: for every vendor annotation record whose class token maps to the
ignore sentinel in the generalized (cityscapes) space, building the
annotation with next annotation id `n` returns no record and returns `n`
unchanged. -/
theorem claim_C2_ignore_keeps_counter (r : AnnRaw) (n img_id : Nat)
    (hc : conv_category r.cls "cityscapes" = .ok none) :
    gen_ann_entry r n img_id "cityscapes" = .ok (none, n) := by
  simp [gen_ann_entry, hc]

/-- Witness for C2 at a UtilityVehicle record, ignored in cityscapes. -/
theorem claim_C2_ignore_keeps_counter_witness :
    conv_category (⟨"UtilityVehicle", [0, 0, 5, 5]⟩ : AnnRaw).cls "cityscapes" =
      .ok none ∧
    gen_ann_entry ⟨"UtilityVehicle", [0, 0, 5, 5]⟩ 3 7 "cityscapes" =
      .ok (none, 3) :=
  ⟨by decide,
    claim_C2_ignore_keeps_counter ⟨"UtilityVehicle", [0, 0, 5, 5]⟩ 3 7 (by decide)⟩

/-- C5 counterexample: `main` with 3 samples, `val = 2`, `test = 2` derives
`train_N = 3 - 2 - 2 = -1`; `split_sample_list` raises nothing, silently
returning overlapping slices (sample 1 lands in both the train and the test
slice), so the misuse is not fatal and not checked. -/
theorem claim_C5_counterexample :
    split_sample_list [0, 1, 2] [(3 : Int) - 2 - 2, 2, 2] = [[0, 1], [], [1, 2]] ∧
    (1 ∈ ([0, 1] : List Nat) ∧ 1 ∈ ([1, 2] : List Nat)) ∧
    ¬ (([0, 1] ++ [] ++ [1, 2] : List Nat).Perm [0, 1, 2]) := by decide

/-- C5 amended: split counts that do not sum to the total sample count, or a
negative derived train count, are not checked anywhere: `split_sample_list`
performs no validation, never fails, and returns exactly one Python slice per
requested count, so misuse silently yields overlapping or incomplete splits
rather than a fatal error. -/
theorem claim_C5_amended_no_validation {α : Type} (l : List α) (Ns : List Int) :
    (split_sample_list l Ns).length = Ns.length :=
  split_sample_list_go_length l Ns 0

/-- C8: on the label file holding a Pedestrian with box `[10, 20, 30, 50]`
and a UtilityVehicle with box `[0, 0, 5, 5]`, in the cityscapes space with
`image_id = 7` and `next_ann_id = 3`, the batch build produces exactly one
annotation `{id 3, image_id 7, category_id 24, bbox [10, 20, 20, 30],
area 100, iscrowd 0}` and the returned next annotation id is 4. -/
theorem claim_C8_scenario :
    gen_ann_entries
        [⟨"Pedestrian", [10, 20, 30, 50]⟩, ⟨"UtilityVehicle", [0, 0, 5, 5]⟩]
        3 7 "cityscapes" =
      .ok ([{ id := 3, image_id := 7, category_id := 24,
              bbox := [10, 20, 20, 30], area := 100, iscrowd := 0 }], 4) := by
  decide

/-- C10: every vendor token that maps to a non-ignore id in the cityscapes
space yields a category id in `{24, 25, 26, 27, 28, 32, 33}`; in particular
id 31 is never produced, although the entry `{id 31, name "train"}` is in the
emitted static categories table. -/
theorem claim_C10_no_train_id :
    (∀ tok c, conv_category tok "cityscapes" = .ok (some c) →
      c ∈ ([24, 25, 26, 27, 28, 32, 33] : List Nat) ∧ c ≠ 31) ∧
    (⟨31, "train"⟩ : CatEntry) ∈ CATEGORIES_CITYSCAPES := by
  constructor
  · intro tok c h
    rw [conv_category_cityscapes] at h
    rcases hl : lookupTok tok CATEGORY_CITYSCAPES_IDX with _ | v
    · rw [hl] at h; simp at h
    · rw [hl] at h
      dsimp only at h
      simp only [Except.ok.injEq] at h
      subst h
      have hmem := lookupTok_mem hl
      simp only [CATEGORY_CITYSCAPES_IDX, List.map_cons, List.map_nil,
        List.mem_cons, List.not_mem_nil, or_false, Option.some.injEq,
        reduceCtorEq] at hmem
      rcases hmem with rfl | rfl | rfl | rfl | rfl | rfl | rfl | rfl | rfl <;> decide
  · decide

/-- Witness for C10 at the Pedestrian token. -/
theorem claim_C10_no_train_id_witness :
    conv_category "Pedestrian" "cityscapes" = .ok (some 24) ∧
    (24 ∈ ([24, 25, 26, 27, 28, 32, 33] : List Nat) ∧ 24 ≠ 31) :=
  ⟨by decide, claim_C10_no_train_id.1 "Pedestrian" 24 (by decide)⟩

/-- C4: for every split the assembler processes successfully, the annotation
ids are exactly the dense integers `0 .. k-1`, where `k` is the total number
of non-ignored vendor instances in the split, and they are strictly
increasing in production order. -/
theorem claim_C4_ann_ids_dense (style : String) (pairs : List SamplePair)
    (imgs : List ImgEntry) (anns : List AnnEntry)
    (h : process_split style pairs = .ok (imgs, anns)) :
    anns.map (·.id) =
      List.range ((pairs.map (fun p => countValid style p.2)).sum) ∧
    (anns.map (·.id)).Pairwise (· < ·) := by
  obtain ⟨-, -, h3, h4⟩ := process_split_go_ok_spec style pairs 0 0 imgs anns h
  refine ⟨?_, ?_⟩
  · rw [h3, h4, List.range_eq_range']
  · rw [h3]
    exact pairwise_lt_range' 0 anns.length

/-- Witness for C4 on a two-sample cityscapes split with one ignored record. -/
theorem claim_C4_ann_ids_dense_witness :
    process_split "cityscapes"
        [("img0", [⟨"Pedestrian", [10, 20, 30, 50]⟩,
                   ⟨"UtilityVehicle", [0, 0, 5, 5]⟩]),
         ("img1", [])] =
      .ok ([{ id := 0, file_name := "img0", width := 1920, height := 1208 },
            { id := 1, file_name := "img1", width := 1920, height := 1208 }],
           [{ id := 0, image_id := 0, category_id := 24,
              bbox := [10, 20, 20, 30], area := 100, iscrowd := 0 }]) ∧
    ([{ id := 0, image_id := 0, category_id := 24, bbox := [10, 20, 20, 30],
        area := 100, iscrowd := 0 }] : List AnnEntry).map (·.id) =
      List.range (([("img0", [(⟨"Pedestrian", [10, 20, 30, 50]⟩ : AnnRaw),
                              ⟨"UtilityVehicle", [0, 0, 5, 5]⟩]),
                   ("img1", ([] : List AnnRaw))].map
          (fun p => countValid "cityscapes" p.2)).sum) :=
  ⟨by decide,
    (claim_C4_ann_ids_dense "cityscapes"
      [("img0", [⟨"Pedestrian", [10, 20, 30, 50]⟩,
                 ⟨"UtilityVehicle", [0, 0, 5, 5]⟩]),
       ("img1", [])]
      [{ id := 0, file_name := "img0", width := 1920, height := 1208 },
       { id := 1, file_name := "img1", width := 1920, height := 1208 }]
      [{ id := 0, image_id := 0, category_id := 24,
         bbox := [10, 20, 20, 30], area := 100, iscrowd := 0 }]
      (by decide)).1⟩

/-- C6: for every split the assembler processes successfully, the image ids
are exactly the dense integers `0 .. m-1` with `m` the number of sample pairs
of the split, one image record per sample pair regardless of how many
annotations the sample produced. -/
theorem claim_C6_img_ids_dense (style : String) (pairs : List SamplePair)
    (imgs : List ImgEntry) (anns : List AnnEntry)
    (h : process_split style pairs = .ok (imgs, anns)) :
    imgs.map (·.id) = List.range pairs.length ∧
    imgs.length = pairs.length ∧
    imgs.map (·.file_name) = pairs.map Prod.fst := by
  obtain ⟨h1, h2, -, -⟩ := process_split_go_ok_spec style pairs 0 0 imgs anns h
  have hlen : imgs.length = pairs.length := by
    have := congrArg List.length h1
    simpa using this
  exact ⟨by rw [h1, List.range_eq_range'], hlen, h2⟩

/-- Witness for C6 on the same split: the sample with zero produced
annotations still gets its image record and consumes image id 1. -/
theorem claim_C6_img_ids_dense_witness :
    process_split "cityscapes"
        [("imgA", [⟨"UtilityVehicle", [0, 0, 5, 5]⟩]), ("imgB", [])] =
      .ok ([{ id := 0, file_name := "imgA", width := 1920, height := 1208 },
            { id := 1, file_name := "imgB", width := 1920, height := 1208 }],
           []) ∧
    ([{ id := 0, file_name := "imgA", width := 1920, height := 1208 },
      { id := 1, file_name := "imgB", width := 1920, height := 1208 }] :
        List ImgEntry).map (·.id) =
      List.range ([("imgA", [(⟨"UtilityVehicle", [0, 0, 5, 5]⟩ : AnnRaw)]),
                   ("imgB", ([] : List AnnRaw))] : List SamplePair).length :=
  ⟨by decide,
    (claim_C6_img_ids_dense "cityscapes"
      [("imgA", [⟨"UtilityVehicle", [0, 0, 5, 5]⟩]), ("imgB", [])]
      [{ id := 0, file_name := "imgA", width := 1920, height := 1208 },
       { id := 1, file_name := "imgB", width := 1920, height := 1208 }]
      []
      (by decide)).1⟩

/-- C7: requesting the unknown target space `"foo"` makes the run abort with
the invalid-target configuration error, and no output file is written for any
split. -/
theorem claim_C7_unknown_space (tr va te : List SamplePair) :
    run_splits "foo" [("train", tr), ("val", va), ("test", te)] =
      ([], some (ConvError.invalidTarget "foo")) := by
  have h1 : "foo" ≠ "a2d2" := by decide
  have h2 : "foo" ≠ "cityscapes" := by decide
  rcases hp : process_split "foo" tr with e | ⟨imgs, anns⟩
  · have he : e = .invalidTarget "foo" :=
      process_split_go_bad_error "foo" h1 h2 tr 0 0 e hp
    subst he
    simp [run_splits, hp]
  · simp [run_splits, hp, gen_cat_entries]

/-- C9: generating the static category table for the native `a2d2` space
always raises `NotImplementedError`, so a full run with that target space
writes no output file for any split, even though category mapping succeeds
for every token of the native table. -/
theorem claim_C9_a2d2_never_writes (tr va te : List SamplePair) :
    gen_cat_entries "a2d2" = .error .notImplemented ∧
    (run_splits "a2d2" [("train", tr), ("val", va), ("test", te)]).1 = [] ∧
    (run_splits "a2d2" [("train", tr), ("val", va), ("test", te)]).2.isSome = true ∧
    CATEGORY_A2D2_IDX.Forall
      (fun p => conv_category p.1 "a2d2" = .ok (some p.2)) := by
  refine ⟨rfl, ?_, ?_, by decide⟩ <;>
    rcases hp : process_split "a2d2" tr with e | ⟨imgs, anns⟩ <;>
      simp [run_splits, hp, gen_cat_entries]

/-- C3: for every sample list, seed, and counts summing to the list's length,
partitioning the seeded shuffle produces three pairwise-disjoint lists whose
concatenation is a permutation of the samples, and re-invoking with the same
list and seed yields identical output.  (Sample pairs are distinct paths, so
the list is assumed duplicate-free; disjointness of the slices fails on a
list with repeated elements.) -/
theorem claim_C3_partition_perm {α : Type} (l : List α) (hnd : l.Nodup)
    (seed t v te : Nat) (hsum : t + v + te = l.length) :
    ∃ A B C,
      split_sample_list (shuffle seed l) [(t : Int), (v : Int), (te : Int)] =
        [A, B, C] ∧
      (A ++ B ++ C).Perm l ∧
      A.Disjoint B ∧ A.Disjoint C ∧ B.Disjoint C ∧
      split_sample_list (shuffle seed l) [(t : Int), (v : Int), (te : Int)] =
        split_sample_list (shuffle seed l) [(t : Int), (v : Int), (te : Int)] := by
  have hperm : (shuffle seed l).Perm l := shuffle_perm seed l
  have hlen : (shuffle seed l).length = l.length := hperm.length_eq
  have h1 : t ≤ (shuffle seed l).length := by omega
  have h2 : t + v ≤ (shuffle seed l).length := by omega
  have h3 : t + v + te ≤ (shuffle seed l).length := by omega
  have ht0 : pySlice (shuffle seed l) 0 ((t : Nat) : Int) = (shuffle seed l).take t := by
    have := pySlice_coe (shuffle seed l) 0 t (Nat.zero_le _) h1
    simpa using this
  have htv : pySlice (shuffle seed l) ((t : Nat) : Int) (((t + v : Nat)) : Int) =
      ((shuffle seed l).drop t).take v := by
    rw [pySlice_coe (shuffle seed l) t (t + v) (by omega) h2, List.drop_take]
    simp
  have htvte : pySlice (shuffle seed l) (((t + v : Nat)) : Int)
      (((t + v + te : Nat)) : Int) = (shuffle seed l).drop (t + v) := by
    rw [pySlice_coe (shuffle seed l) (t + v) (t + v + te) (by omega) h3]
    have : t + v + te = (shuffle seed l).length := by omega
    rw [this, List.take_length]
  have hsplit : split_sample_list (shuffle seed l)
        [(t : Int), (v : Int), (te : Int)] =
      [(shuffle seed l).take t, ((shuffle seed l).drop t).take v,
       (shuffle seed l).drop (t + v)] := by
    simp only [split_sample_list, split_sample_list_go]
    rw [show (0 : Int) + (t : Int) = ((t : Nat) : Int) by omega,
      show ((t : Nat) : Int) + (v : Int) = (((t + v : Nat)) : Int) by push_cast; ring,
      show (((t + v : Nat)) : Int) + (te : Int) = (((t + v + te : Nat)) : Int) by
        push_cast; ring,
      show pySlice (shuffle seed l) 0 ((t : Nat) : Int) =
          pySlice (shuffle seed l) ((0 : Int)) ((t : Nat) : Int) from rfl,
      ht0, htv, htvte]
  have hABC : (shuffle seed l).take t ++ ((shuffle seed l).drop t).take v ++
      (shuffle seed l).drop (t + v) = shuffle seed l := by
    rw [show (shuffle seed l).take t ++ ((shuffle seed l).drop t).take v =
        (shuffle seed l).take (t + v) from (List.take_add _ t v).symm,
      List.take_append_drop]
  have hnL : (shuffle seed l).Nodup := hperm.symm.nodup hnd
  have hnABC : ((shuffle seed l).take t ++ ((shuffle seed l).drop t).take v ++
      (shuffle seed l).drop (t + v)).Nodup := by rw [hABC]; exact hnL
  obtain ⟨hab, hc, hdisj⟩ := List.nodup_append.mp hnABC
  obtain ⟨-, -, hABd⟩ := List.nodup_append.mp hab
  obtain ⟨hAC, hBC⟩ := List.disjoint_append_left.mp hdisj
  exact ⟨(shuffle seed l).take t, ((shuffle seed l).drop t).take v,
    (shuffle seed l).drop (t + v), hsplit, by rw [hABC]; exact hperm, hABd, hAC,
    hBC, rfl⟩

/-- Witness for C3 on the concrete duplicate-free list `[10, 11, 12]` with
seed 7 and counts `(1, 1, 1)`. -/
theorem claim_C3_partition_perm_witness :
    ([10, 11, 12] : List Nat).Nodup ∧ 1 + 1 + 1 = ([10, 11, 12] : List Nat).length ∧
    (∃ A B C,
      split_sample_list (shuffle 7 [10, 11, 12]) [(1 : Int), (1 : Int), (1 : Int)] =
        [A, B, C] ∧
      (A ++ B ++ C).Perm [10, 11, 12] ∧
      A.Disjoint B ∧ A.Disjoint C ∧ B.Disjoint C ∧
      split_sample_list (shuffle 7 [10, 11, 12]) [(1 : Int), (1 : Int), (1 : Int)] =
        split_sample_list (shuffle 7 [10, 11, 12]) [(1 : Int), (1 : Int), (1 : Int)]) :=
  ⟨by decide, by decide,
    claim_C3_partition_perm [10, 11, 12] (by decide) 7 1 1 1 (by decide)⟩

end A2D2
